import Mathlib

/-!
Verification of the Recurring Reminder Scheduling & Dispatch Engine of the
EntrenaSmart backend (`backend/src/services/scheduler_service.py` and the
task modules under `backend/src/services/tasks/`).

The Python code is shallowly embedded: the APScheduler job store becomes a
list of job records, `datetime.now()` becomes an explicit `NowTime`
argument (weekday plus seconds since local midnight — sufficient because
every trigger instant built by the code is a whole minute), and the
always-caught exceptions of the dispatch path are made explicit with
`Except`.  Machine integers are `Nat`/`Int` with explicit `%` where the
Python arithmetic wraps.
-/

namespace EntrenaSmart

/-- Trigger specifications as built in `schedule_training_reminder` and
`schedule_weekly_reminder`: `oneShotToday h m` is the APScheduler
`DateTrigger(run_date = today at h:m)` added for a same-day reminder;
`weeklyAt w h m` is `CronTrigger(day_of_week = w, hour = h, minute = m)`.
A job whose trigger list has two or more elements corresponds to an
`OrTrigger` over them in the Python code. -/
inductive TriggerSpec where
  | oneShotToday (hour : Nat) (minute : Nat)
  | weeklyAt (weekday : Nat) (hour : Nat) (minute : Nat)
deriving DecidableEq, Repr

/-- The aspects of `datetime.now(tz)` that `schedule_training_reminder`
reads: `weekday` is Python's `datetime.weekday()` (0 = Monday … 6 = Sunday)
and `secOfDay` the number of whole seconds since local midnight.  The
comparison `reminder_datetime > now` in the source compares a whole-minute
instant (`second=0, microsecond=0`) against `now`, which is exactly
`now.secOfDay < reminderHour*3600 + reminderMinute*60`. -/
structure NowTime where
  weekday : Nat
  secOfDay : Nat
deriving DecidableEq, Repr

/-- Trigger composition inlined in `schedule_training_reminder`
(lines 387–436): if today is the training weekday, build
`reminder_datetime = now.replace(hour, minute, second=0, microsecond=0)`
and, when it is still in the future, add a `DateTrigger` for today; a
weekly `CronTrigger` is always appended afterwards. -/
def composeTriggers (weekday reminderHour reminderMinute : Nat)
    (now : NowTime) : List TriggerSpec :=
  let sameDay : List TriggerSpec :=
    if now.weekday = weekday then
      if now.secOfDay < reminderHour * 3600 + reminderMinute * 60 then
        [TriggerSpec.oneShotToday reminderHour reminderMinute]
      else []
    else []
  sameDay ++ [TriggerSpec.weeklyAt weekday reminderHour reminderMinute]

/-- Digit string as accepted by Python's `int()` after sign removal:
nonempty, decimal digits, with single underscores allowed only between
digits. -/
def pyDigits? : List Char → Option Nat
  | [] => none
  | cs => go cs 0 true
where
  /-- Scans the characters; `first` is true when the previous character was
  not a digit (start of string or just after an underscore), in which case
  an underscore is rejected. -/
  go : List Char → Nat → Bool → Option Nat
  | [], acc, first => if first then none else some acc
  | c :: cs, acc, first =>
    if c.isDigit then go cs (acc * 10 + (c.toNat - '0'.toNat)) false
    else if c = '_' ∧ first = false then
      match cs with
      | [] => none
      | d :: _ => if d.isDigit then go cs acc true else none
    else none

/-- Python's `int(s)` on an ASCII part: strip surrounding whitespace,
accept an optional single `+`/`-` sign followed by digits (with
underscore separators); `none` models the `ValueError` raised
otherwise. -/
def pyInt? (part : List Char) : Option Int :=
  let cs := (part.dropWhile Char.isWhitespace).reverse
  let cs := (cs.dropWhile Char.isWhitespace).reverse
  match cs with
  | '-' :: rest => (pyDigits? rest).map (fun n => -(n : Int))
  | '+' :: rest => (pyDigits? rest).map (fun n => (n : Int))
  | rest => (pyDigits? rest).map (fun n => (n : Int))

/-- Python's `s.split(":")`: cut the character sequence at every colon;
the result always has at least one part, and `""` splits to `[""]`. -/
def pySplitColon (s : String) : List (List Char) :=
  go s.data []
where
  /-- Accumulates the current part in reverse while scanning. -/
  go : List Char → List Char → List (List Char)
  | [], acc => [acc.reverse]
  | c :: cs, acc =>
    if c = ':' then acc.reverse :: go cs [] else go cs (c :: acc)

/-- Embedding of `SchedulerService._calculate_reminder_time` (lines
545–575): split `training_time` on `":"`, convert the first two parts with
`int()`, build `datetime(2000, 1, 1, hour, minute)` (which raises unless
`0 ≤ hour ≤ 23` and `0 ≤ minute ≤ 59`), subtract
`timedelta(minutes = offset)` and return the resulting hour and minute.
Every exception along the way is caught and mapped to `(0, 0)`. -/
def calculateReminderTime (trainingTime : String) (offset : Nat) : Nat × Nat :=
  match pySplitColon trainingTime with
  | p0 :: p1 :: _ =>
    match pyInt? p0, pyInt? p1 with
    | some h, some m =>
      if 0 ≤ h ∧ h ≤ 23 ∧ 0 ≤ m ∧ m ≤ 59 then
        let total : Int := (h * 60 + m - (offset : Int)) % 1440
        ((total / 60).toNat, (total % 60).toNat)
      else (0, 0)
    | _, _ => (0, 0)
  | _ => (0, 0)

/-- A persisted APScheduler job as used by this service: its id, its
trigger specification (a list of length ≥ 2 stands for an `OrTrigger`),
and, for training reminders, the serialisable `args`
`[student_chat_id, weekday, training_time]` (`none` for the weekly
broadcast job, which takes no args). -/
structure Job where
  id : String
  triggers : List TriggerSpec
  payload : Option (Nat × Nat × String)
deriving DecidableEq, Repr

/-- The APScheduler job store (SQLAlchemyJobStore): at most one job per id
is the store's own invariant, maintained here by the operations below. -/
abbrev Store := List Job

/-- Number of live jobs under a given id. -/
def countId (store : Store) (i : String) : Nat :=
  (store.filter (fun j => j.id = i)).length

/-- Embedding of `SchedulerService._cancel_job` (lines 577–599) acting on
an initialized store: `get_job`, and when present `remove_job`; returns
whether a job existed, never raises. -/
def cancelJobStore (store : Store) (jobId : String) : Bool × Store :=
  if store.any (fun j => j.id = jobId) then
    (true, store.filter (fun j => j.id ≠ jobId))
  else
    (false, store)

/-- The APScheduler `add_job(..., replace_existing=True)` upsert: any job
under the same id is replaced. -/
def addJobReplace (store : Store) (job : Job) : Store :=
  store.filter (fun j => j.id ≠ job.id) ++ [job]

/-- Job id built for a training reminder, `f"reminder_training_{training_id}"`. -/
def reminderJobId (trainingId : Nat) : String :=
  "reminder_training_" ++ toString trainingId

/-- Embedding of `SchedulerService.schedule_training_reminder` (lines
313–470).  The scheduler runtime is `Option Store` (`none` when
`initialize_scheduler` was never run, in which case the call logs and
returns `""`).  Order as in the source: cancel any previous job under the
id, compute the reminder time, look the weekday up in
`["mon",…,"sun"]` (an out-of-range weekday raises `IndexError`, caught by
the enclosing `except` which returns `""`), compose the triggers and add
the job with `replace_existing=True`. -/
def scheduleTrainingReminder (trainingId chatId : Nat) (weekday : Nat)
    (trainingTime : String) (offset : Nat) (now : NowTime)
    (sched : Option Store) : String × Option Store :=
  match sched with
  | none => ("", none)
  | some store =>
    let jobId := reminderJobId trainingId
    let store1 := (cancelJobStore store jobId).2
    if weekday < 7 then
      let r := calculateReminderTime trainingTime offset
      let triggers := composeTriggers weekday r.1 r.2 now
      let job : Job :=
        { id := jobId, triggers := triggers
          payload := some (chatId, weekday, trainingTime) }
      (jobId, some (addJobReplace store1 job))
    else
      ("", some store1)

/-- Embedding of `SchedulerService.cancel_training_reminder` (lines
472–486): `_cancel_job` on the derived id; with an uninitialized scheduler
`_cancel_job` returns `False` immediately. -/
def cancelTrainingReminder (trainingId : Nat) (sched : Option Store) :
    Bool × Option Store :=
  match sched with
  | none => (false, none)
  | some store =>
    let r := cancelJobStore store (reminderJobId trainingId)
    (r.1, some r.2)

/-- Embedding of `SchedulerService.reschedule_training_reminder` (lines
488–543): look the job up; when absent return `False`.  When present,
rebuild a `CronTrigger` keeping the day taken from
`job.trigger.fields[4].expressions[0]` — an attribute access that only
exists on a plain `CronTrigger`; when the stored trigger is an `OrTrigger`
(two triggers) or a `DateTrigger`, the access raises `AttributeError`,
caught by the enclosing `except` which returns `False` with the job
untouched. -/
def rescheduleTrainingReminder (trainingId : Nat) (newTrainingTime : String)
    (offset : Nat) (sched : Option Store) : Bool × Option Store :=
  match sched with
  | none => (false, none)
  | some store =>
    let jobId := reminderJobId trainingId
    match store.find? (fun j => j.id = jobId) with
    | none => (false, some store)
    | some job =>
      match job.triggers with
      | [TriggerSpec.weeklyAt day _ _] =>
        let r := calculateReminderTime newTrainingTime offset
        let job' := { job with triggers := [TriggerSpec.weeklyAt day r.1 r.2] }
        (true, some (store.map (fun j => if j.id = jobId then job' else j)))
      | _ => (false, some store)

/-- The `WeeklyReminderConfig` fields read by the scheduler and the config
watcher: `is_active`, `send_day`, `send_hour`, `send_minute`,
`is_monday_off` (the message-variant selector). -/
structure WeeklyConfig where
  isActive : Bool
  sendDay : Nat
  sendHour : Nat
  sendMinute : Nat
  isMondayOff : Bool
deriving DecidableEq, Repr

/-- Fixed job id of the trainer's weekly broadcast. -/
def weeklyJobId : String := "weekly_reminder_trainer"

/-- Embedding of `SchedulerService.schedule_weekly_reminder` (lines
215–300): read the config (`none` models a falsy/failed read); when the
config is missing or `is_active` is false, return `""` **before** touching
any existing job.  Otherwise cancel the previous job, look `send_day` up
in the weekday-name list (out of range raises, caught, returns `""`) and
add the weekly `CronTrigger` job. -/
def scheduleWeeklyReminder (config : Option WeeklyConfig)
    (sched : Option Store) : String × Option Store :=
  match sched with
  | none => ("", none)
  | some store =>
    match config with
    | none => ("", some store)
    | some c =>
      if c.isActive = false then
        ("", some store)
      else
        let store1 := (cancelJobStore store weeklyJobId).2
        if c.sendDay < 7 then
          let job : Job :=
            { id := weeklyJobId
              triggers := [TriggerSpec.weeklyAt c.sendDay c.sendHour c.sendMinute]
              payload := none }
          (weeklyJobId, some (addJobReplace store1 job))
        else
          ("", some store1)

/-- Embedding of `SchedulerService.reschedule_weekly_reminder` (lines
302–311): re-run `schedule_weekly_reminder` and report whether it returned
a nonempty job id. -/
def rescheduleWeeklyReminder (config : Option WeeklyConfig)
    (sched : Option Store) : Bool × Option Store :=
  let r := scheduleWeeklyReminder config sched
  (r.1 ≠ "", r.2)

/-- Fingerprint built by `ConfigWatcherTask.check_config_changes`:
`f"{is_active}_{send_day}_{send_hour}_{send_minute}_{is_monday_off}"`. -/
def configFingerprint (c : WeeklyConfig) : String :=
  toString c.isActive ++ "_" ++ toString c.sendDay ++ "_" ++
    toString c.sendHour ++ "_" ++ toString c.sendMinute ++ "_" ++
    toString c.isMondayOff

/-- Embedding of `ConfigWatcherTask.check_config_changes` (lines 22–81).
State is the class variable `_last_config_hash : Option String`;
`available` models whether `get_global_application()` yields an
application whose `bot_data` holds the scheduler service.  Returns the new
stored fingerprint and the number of `reschedule_weekly_reminder` calls
made during the poll.  First observation stores the fingerprint and
returns; an unchanged fingerprint does nothing; a changed one reschedules
(when the scheduler handle is available — otherwise only a warning is
logged) and updates the stored fingerprint either way. -/
def checkConfigChanges (available : Bool) (config : WeeklyConfig)
    (lastHash : Option String) : Option String × Nat :=
  let h := configFingerprint config
  match lastHash with
  | none => (some h, 0)
  | some old =>
    if h ≠ old then
      if available then (some h, 1) else (some h, 0)
    else
      (some old, 0)

/-- Outcome of the Telegram `send_message` delivery awaited through
`future.result(timeout=...)` in `ReminderTask.send_reminder_sync`:
it returns, exceeds the timeout (`concurrent.futures.TimeoutError`), or
raises some other exception. -/
inductive DeliveryOutcome where
  | success
  | timeout
  | failure
deriving DecidableEq, Repr

/-- Exceptions that can escape the delivery call inside
`send_reminder_sync` before its handlers run. -/
inductive DispatchError where
  | timeoutErr
  | sendErr
deriving DecidableEq, Repr

/-- Environment of one firing of `ReminderTask.send_reminder_sync`: the
day configuration looked up from the database (`none` when absent or the
lookup raised — both fall back to generic defaults), the state of the
global event loop, and the outcome of the delivery call. -/
structure ReminderEnv where
  dayConfig : Option (String × String)
  loopPresent : Bool
  loopRunning : Bool
  delivery : DeliveryOutcome
deriving DecidableEq, Repr

/-- The raw delivery step of `send_reminder_sync`:
`future.result(timeout=...)`, as an `Except` so the exceptions it raises
are explicit. -/
def deliverCall (o : DeliveryOutcome) : Except DispatchError Bool :=
  match o with
  | DeliveryOutcome.success => Except.ok true
  | DeliveryOutcome.timeout => Except.error DispatchError.timeoutErr
  | DeliveryOutcome.failure => Except.error DispatchError.sendErr

/-- Body of the outer `try` of `ReminderTask.send_reminder_sync` (lines
99–168): when the global event loop exists and is running, submit the
delivery coroutine and await it, the inner `except TimeoutError` /
`except Exception` handlers turning either error into `False`; when no
running loop is available, log and return `False`.  The result is an
`Except`: an `Except.error` here would be an exception escaping into the
scheduler's worker pool. -/
def sendReminderBody (env : ReminderEnv) : Except DispatchError Bool :=
  if env.loopPresent ∧ env.loopRunning then
    match deliverCall env.delivery with
    | Except.ok _ => Except.ok true
    | Except.error _ => Except.ok false
  else
    Except.ok false

/-- Embedding of `ReminderTask.send_reminder_sync` (lines 32–176) as seen
by APScheduler: the outer `except Exception` (lines 170–176) converts any
escaping exception into `False`. -/
def sendReminderSync (env : ReminderEnv) : Bool :=
  match sendReminderBody env with
  | Except.ok b => b
  | Except.error _ => false

/-- Number of times `send_reminder_sync` awaits the delivery future during
one firing: once when the loop is available and running, zero otherwise —
the function never re-submits after a timeout or an exception. -/
def deliveryAttempts (env : ReminderEnv) : Nat :=
  if env.loopPresent ∧ env.loopRunning then 1 else 0

/-- Environment of one firing of
`WeeklyReminderTask.send_weekly_reminder_sync`: broadcast config, the
configured message (`none` models a missing message), the active
students' chat ids, availability of the global bot and event loop, and
the per-student delivery outcome. -/
structure WeeklyEnv where
  config : Option WeeklyConfig
  message : Option String
  students : List Nat
  botAvailable : Bool
  loopAvailable : Bool
  sendOk : Nat → Bool

/-- Embedding of `WeeklyReminderTask.send_weekly_reminder_sync` (lines
21–143): returns the boolean result together with the number of messages
submitted for delivery.  An inactive config returns `False` **before** any
message is sent. -/
def sendWeeklyReminderSync (env : WeeklyEnv) : Bool × Nat :=
  match env.config with
  | none => (false, 0)
  | some c =>
    if c.isActive = false then
      (false, 0)
    else
      match env.message with
      | none => (false, 0)
      | some _ =>
        if env.students.isEmpty then
          (true, 0)
        else if env.botAvailable = false then
          (false, 0)
        else if env.loopAvailable = false then
          (false, 0)
        else
          let errorCount := (env.students.filter (fun s => env.sendOk s = false)).length
          (errorCount = 0, env.students.length)

/-- A `Training` row as created by `TrainingService.add_training`. -/
structure TrainingRecord where
  trainingId : Nat
  studentId : Nat
  weekday : Nat
  timeStr : String
deriving DecidableEq, Repr

/-- Embedding of `TrainingService.add_training` (lines 33–103): validate
weekday and time string (raising `ValidationError`, the `Except.error`
case), persist the training, then — when a scheduler service was injected
— try to schedule the reminder inside a `try/except` whose handler only
logs; the created training is returned regardless of the scheduling
outcome.  `scheduler` is `none` when no `SchedulerService` was injected;
`some sched` carries that service's runtime state. -/
def addTraining (studentId chatId : Nat) (weekday : Nat) (timeStr : String)
    (offset : Nat) (now : NowTime) (newTrainingId : Nat)
    (scheduler : Option (Option Store)) :
    Except String (TrainingRecord × Option (Option Store)) :=
  if ¬ weekday < 7 then
    Except.error "Día de la semana inválido (debe ser 0-6)"
  else if timeStr = "" then
    Except.error "Hora inválida"
  else
    let training : TrainingRecord :=
      { trainingId := newTrainingId, studentId := studentId
        weekday := weekday, timeStr := timeStr }
    let scheduler' :=
      match scheduler with
      | none => none
      | some sched =>
        some (scheduleTrainingReminder newTrainingId chatId weekday timeStr
          offset now sched).2
    Except.ok (training, scheduler')

/-- Decidable rendering of "the training-time string parses as HH:MM":
it splits on `":"` into at least two parts and Python's `int()` accepts
both of the first two. -/
def parsesHM (trainingTime : String) : Bool :=
  match pySplitColon trainingTime with
  | p0 :: p1 :: _ => (pyInt? p0).isSome && (pyInt? p1).isSome
  | _ => false

section Helpers

lemma composeTriggers_eq_ite (w h m : Nat) (now : NowTime) :
    composeTriggers w h m now =
      if now.weekday = w ∧ now.secOfDay < h * 3600 + m * 60 then
        [TriggerSpec.oneShotToday h m, TriggerSpec.weeklyAt w h m]
      else
        [TriggerSpec.weeklyAt w h m] := by
  unfold composeTriggers
  by_cases h1 : now.weekday = w <;>
    by_cases h2 : now.secOfDay < h * 3600 + m * 60 <;>
      simp [h1, h2]

lemma countId_filter_ne (store : Store) (i : String) :
    countId (store.filter (fun j => j.id ≠ i)) i = 0 := by
  induction store with
  | nil => rfl
  | cons a tl ih =>
    by_cases ha : a.id = i
    · simp only [countId, List.filter] at ih ⊢
      simp [ha, ih]
    · simp only [countId, List.filter] at ih ⊢
      simp [ha, ih]

lemma countId_append (s t : Store) (i : String) :
    countId (s ++ t) i = countId s i + countId t i := by
  simp [countId, List.filter_append]

lemma countId_addJobReplace (store : Store) (job : Job) :
    countId (addJobReplace store job) job.id = 1 := by
  unfold addJobReplace
  rw [countId_append, countId_filter_ne]
  simp [countId]

lemma countId_eq_zero_iff_any_eq_false (store : Store) (i : String) :
    countId store i = 0 ↔ store.any (fun j => j.id = i) = false := by
  induction store with
  | nil => simp [countId]
  | cons a tl ih =>
    by_cases ha : a.id = i
    · simp only [countId, List.filter] at ih ⊢
      simp [ha]
    · simp only [countId, List.filter] at ih ⊢
      simp [ha, ih]

end Helpers

/-- Claim C1: for every call to `scheduleReminder`, when now's weekday
equals the configured weekday and today's computed reminder instant is
strictly after now, the composed trigger set is exactly the one-shot for
today followed by the weekly trigger; in every other case it is exactly
the weekly trigger. -/
theorem C1_composeTriggers_cases (w h m : Nat) (now : NowTime) :
    composeTriggers w h m now =
      if now.weekday = w ∧ now.secOfDay < h * 3600 + m * 60 then
        [TriggerSpec.oneShotToday h m, TriggerSpec.weeklyAt w h m]
      else
        [TriggerSpec.weeklyAt w h m] :=
  composeTriggers_eq_ite w h m now

/-- Claim C3: on a training time whose two parts parse to a valid hour and
minute, `_calculate_reminder_time` returns a valid `(hour, minute)` pair
equal to `(hour*60 + minute - offset) mod 1440`, for every offset; and no
roll-over to the previous calendar day is applied — the weekly trigger
composed from the result keeps the configured weekday. -/
theorem C3_calculateReminderTime_spec (ts : String) (p0 p1 : List Char)
    (rest : List (List Char)) (h m : Int) (offset : Nat)
    (hsplit : pySplitColon ts = p0 :: p1 :: rest)
    (hp0 : pyInt? p0 = some h) (hp1 : pyInt? p1 = some m)
    (hh0 : 0 ≤ h) (hh1 : h ≤ 23) (hm0 : 0 ≤ m) (hm1 : m ≤ 59) :
    (calculateReminderTime ts offset).1 < 24 ∧
    (calculateReminderTime ts offset).2 < 60 ∧
    ((calculateReminderTime ts offset).1 * 60 + (calculateReminderTime ts offset).2 : Int)
      = (h * 60 + m - (offset : Int)) % 1440 ∧
    ∀ (w : Nat) (now : NowTime),
      TriggerSpec.weeklyAt w (calculateReminderTime ts offset).1
          (calculateReminderTime ts offset).2 ∈
        composeTriggers w (calculateReminderTime ts offset).1
          (calculateReminderTime ts offset).2 now := by
  have hcalc : calculateReminderTime ts offset =
      ((((h * 60 + m - (offset : Int)) % 1440) / 60).toNat,
        (((h * 60 + m - (offset : Int)) % 1440) % 60).toNat) := by
    unfold calculateReminderTime
    rw [hsplit]
    simp [hp0, hp1, hh0, hh1, hm0, hm1]
  rw [hcalc]
  refine ⟨by omega, by omega, by omega, ?_⟩
  intro w now
  simp [composeTriggers]

/-- Claim C10 witness companion fact is discharged by `decide`; the claim
itself: for every training-time string that does not parse as HH:MM,
`_calculate_reminder_time` never raises and falls back to `(0, 0)`,
midnight, so scheduling proceeds instead of failing. -/
theorem C10_unparsable_time_defaults_to_midnight (ts : String) (offset : Nat)
    (hbad : parsesHM ts = false) :
    calculateReminderTime ts offset = (0, 0) := by
  unfold parsesHM at hbad
  unfold calculateReminderTime
  cases hs : pySplitColon ts with
  | nil => rfl
  | cons p0 tl =>
    rw [hs] at hbad
    cases tl with
    | nil => rfl
    | cons p1 rest =>
      cases h0 : pyInt? p0 with
      | none => simp [h0]
      | some v0 =>
        cases h1 : pyInt? p1 with
        | none => simp [h0, h1]
        | some v1 => simp [h0, h1] at hbad

/-- Witness for C10 at the concrete unparsable input `"ab:cd"`. -/
theorem C10_witness :
    parsesHM "ab:cd" = false ∧ calculateReminderTime "ab:cd" 30 = (0, 0) :=
  ⟨by decide, C10_unparsable_time_defaults_to_midnight "ab:cd" 30 (by decide)⟩

/-- Witness for C3 at the concrete input `"05:00"` with a 30-minute
offset. -/
theorem C3_witness :
    pySplitColon "05:00" = [['0', '5'], ['0', '0']] ∧
      pyInt? ['0', '5'] = some 5 ∧ pyInt? ['0', '0'] = some 0 ∧
      (calculateReminderTime "05:00" 30).1 < 24 ∧
      (calculateReminderTime "05:00" 30).2 < 60 ∧
      ((calculateReminderTime "05:00" 30).1 * 60 +
        (calculateReminderTime "05:00" 30).2 : Int) = (5 * 60 + 0 - 30) % 1440 := by
  have hs : pySplitColon "05:00" = [['0', '5'], ['0', '0']] := by decide
  have h0 : pyInt? ['0', '5'] = some 5 := by decide
  have h1 : pyInt? ['0', '0'] = some 0 := by decide
  have h := C3_calculateReminderTime_spec "05:00" ['0', '5'] ['0', '0'] [] 5 0 30
    hs h0 h1 (by decide) (by decide) (by decide) (by decide)
  exact ⟨hs, h0, h1, h.1, h.2.1, h.2.2.1⟩

section Helpers2

lemma scheduleTrainingReminder_some (trainingId chatId weekday : Nat)
    (trainingTime : String) (offset : Nat) (now : NowTime) (store : Store)
    (hw : weekday < 7) :
    scheduleTrainingReminder trainingId chatId weekday trainingTime offset now
        (some store) =
      (reminderJobId trainingId,
        some (addJobReplace
          (cancelJobStore store (reminderJobId trainingId)).2
          { id := reminderJobId trainingId
            triggers := composeTriggers weekday
              (calculateReminderTime trainingTime offset).1
              (calculateReminderTime trainingTime offset).2 now
            payload := some (chatId, weekday, trainingTime) })) := by
  unfold scheduleTrainingReminder
  simp [hw]

end Helpers2

/-- Claim C4: a (re-)scheduling call for a training id leaves exactly one
job in the Job Store under the id derived from that training id, whatever
jobs — including earlier copies of itself — were stored before, so
repeated calls never accumulate duplicates. -/
theorem C4_schedule_one_job_per_id (trainingId chatId weekday : Nat)
    (trainingTime : String) (offset : Nat) (now : NowTime)
    (store store' : Store) (hw : weekday < 7)
    (hrun : (scheduleTrainingReminder trainingId chatId weekday trainingTime
      offset now (some store)).2 = some store') :
    (scheduleTrainingReminder trainingId chatId weekday trainingTime offset now
      (some store)).1 = reminderJobId trainingId ∧
    countId store' (reminderJobId trainingId) = 1 := by
  rw [scheduleTrainingReminder_some trainingId chatId weekday trainingTime
    offset now store hw] at hrun ⊢
  refine ⟨rfl, ?_⟩
  simp only [Option.some.injEq] at hrun
  subst hrun
  exact countId_addJobReplace _ _

/-- Witness for C4: scheduling training 1 (Monday 05:00, offset 30, now
Monday 04:00:00) into an empty store leaves exactly one job under
`reminder_training_1`. -/
theorem C4_witness :
    (scheduleTrainingReminder 1 5 0 "05:00" 30 ⟨0, 14400⟩ (some [])).1 =
      reminderJobId 1 ∧
    countId [⟨reminderJobId 1,
      [TriggerSpec.oneShotToday 4 30, TriggerSpec.weeklyAt 0 4 30],
      some (5, 0, "05:00")⟩] (reminderJobId 1) = 1 := by
  have h := C4_schedule_one_job_per_id 1 5 0 "05:00" 30 ⟨0, 14400⟩ []
    [⟨reminderJobId 1,
      [TriggerSpec.oneShotToday 4 30, TriggerSpec.weeklyAt 0 4 30],
      some (5, 0, "05:00")⟩] (by decide) (by decide)
  exact h

/-- Claim C9: cancelling the reminder of a training whose job is not in
the Job Store returns `false` (and, the operation being total, never
throws) leaving the store untouched; when the job exists the call returns
`true` and removes it. -/
theorem C9_cancel_absent_returns_false (trainingId : Nat) (store : Store) :
    (countId store (reminderJobId trainingId) = 0 →
      cancelTrainingReminder trainingId (some store) = (false, some store)) ∧
    (0 < countId store (reminderJobId trainingId) →
      (cancelTrainingReminder trainingId (some store)).1 = true ∧
      (cancelTrainingReminder trainingId (some store)).2 =
        some (store.filter (fun j => j.id ≠ reminderJobId trainingId)) ∧
      countId (store.filter (fun j => j.id ≠ reminderJobId trainingId))
        (reminderJobId trainingId) = 0) := by
  constructor
  · intro h0
    have hany := (countId_eq_zero_iff_any_eq_false store
      (reminderJobId trainingId)).mp h0
    unfold cancelTrainingReminder cancelJobStore
    simp [hany]
  · intro hpos
    have hany : store.any (fun j => j.id = reminderJobId trainingId) = true := by
      cases h : store.any (fun j => j.id = reminderJobId trainingId) with
      | false =>
        have := (countId_eq_zero_iff_any_eq_false store
          (reminderJobId trainingId)).mpr h
        omega
      | true => rfl
    unfold cancelTrainingReminder cancelJobStore
    refine ⟨by simp [hany], by simp [hany], countId_filter_ne store _⟩

/-- Witness for C9: cancelling training 2 in an empty store returns
`false` with the store unchanged; cancelling training 1 when its job is
stored returns `true`. -/
theorem C9_witness :
    cancelTrainingReminder 2 (some []) = (false, some []) ∧
    (cancelTrainingReminder 1 (some [⟨reminderJobId 1,
      [TriggerSpec.weeklyAt 0 4 30], some (5, 0, "05:00")⟩])).1 = true := by
  refine ⟨(C9_cancel_absent_returns_false 2 []).1 (by decide), ?_⟩
  exact ((C9_cancel_absent_returns_false 1 [⟨reminderJobId 1,
    [TriggerSpec.weeklyAt 0 4 30], some (5, 0, "05:00")⟩]).2 (by decide)).1

/-- Claim C8: while the scheduler runtime is not initialized,
`schedule_training_reminder` is a no-op returning the empty id,
`cancel_training_reminder` returns `false`, neither raises, and
`add_training` still succeeds, returning the created training. -/
theorem C8_graceful_degradation (trainingId chatId weekday studentId newId : Nat)
    (trainingTime : String) (offset : Nat) (now : NowTime)
    (hw : weekday < 7) (ht : ¬ trainingTime = "") :
    scheduleTrainingReminder trainingId chatId weekday trainingTime offset now
        none = ("", none) ∧
    cancelTrainingReminder trainingId none = (false, none) ∧
    addTraining studentId chatId weekday trainingTime offset now newId
        (some none) =
      Except.ok ((⟨newId, studentId, weekday, trainingTime⟩ : TrainingRecord),
        some none) := by
  refine ⟨rfl, rfl, ?_⟩
  unfold addTraining
  simp [hw, ht, scheduleTrainingReminder]

/-- Witness for C8 at concrete inputs: training creation succeeds while
the scheduler runtime is uninitialized. -/
theorem C8_witness :
    scheduleTrainingReminder 1 5 0 "05:00" 30 ⟨0, 14400⟩ none = ("", none) ∧
    cancelTrainingReminder 1 none = (false, none) ∧
    addTraining 7 5 0 "05:00" 30 ⟨0, 14400⟩ 1 (some none) =
      Except.ok ((⟨1, 7, 0, "05:00"⟩ : TrainingRecord), some none) :=
  C8_graceful_degradation 1 5 0 7 1 "05:00" 30 ⟨0, 14400⟩ (by decide) (by decide)

/-- Claim C7: when the delivery call of a reminder firing times out or
raises, the firing returns the failure result `False`, the delivery is
attempted exactly once (never retried inside the engine), and — for every
environment whatsoever — no exception escapes `send_reminder_sync` into
the scheduler's execution pool. -/
theorem C7_dispatch_containment (env : ReminderEnv)
    (hp : env.loopPresent = true) (hr : env.loopRunning = true)
    (hfail : env.delivery = DeliveryOutcome.timeout ∨
      env.delivery = DeliveryOutcome.failure) :
    sendReminderBody env = Except.ok false ∧
    sendReminderSync env = false ∧
    deliveryAttempts env = 1 ∧
    ∀ e : ReminderEnv, ∃ b : Bool, sendReminderBody e = Except.ok b := by
  have hbody : sendReminderBody env = Except.ok false := by
    rcases hfail with hf | hf <;> simp [sendReminderBody, deliverCall, hp, hr, hf]
  refine ⟨hbody, by simp [sendReminderSync, hbody],
    by simp [deliveryAttempts, hp, hr], ?_⟩
  intro e
  unfold sendReminderBody
  by_cases hc : e.loopPresent = true ∧ e.loopRunning = true
  · cases he : e.delivery <;> simp [deliverCall, hc.1, hc.2]
  · rw [if_neg]
    · exact ⟨false, rfl⟩
    · simpa using hc

/-- Witness for C7 at a concrete firing whose delivery times out. -/
theorem C7_witness :
    sendReminderSync ⟨none, true, true, DeliveryOutcome.timeout⟩ = false ∧
    deliveryAttempts ⟨none, true, true, DeliveryOutcome.timeout⟩ = 1 := by
  have h := C7_dispatch_containment ⟨none, true, true, DeliveryOutcome.timeout⟩
    rfl rfl (Or.inl rfl)
  exact ⟨h.2.1, h.2.2.1⟩

/-- Claim C6 counterexample: when the global application (and with it the
scheduler handle) is unavailable — e.g. scheduler initialization failed,
which `post_init` explicitly tolerates — a poll that sees a changed
fingerprint makes zero reschedule calls yet still updates the stored
fingerprint, contradicting "calls rescheduleBroadcast exactly once". -/
theorem C6_counterexample :
    checkConfigChanges false ⟨true, 6, 19, 0, false⟩
        (some (configFingerprint ⟨true, 6, 18, 0, false⟩)) =
      (some (configFingerprint ⟨true, 6, 19, 0, false⟩), 0) ∧
    configFingerprint ⟨true, 6, 19, 0, false⟩ ≠
      configFingerprint ⟨true, 6, 18, 0, false⟩ := by
  constructor
  · decide
  · decide

/-- Claim C6 as amended: when the global scheduler handle is available,
the watcher's first poll stores the fingerprint of
`(isActive, sendDay, sendHour, sendMinute, variant)` and takes no action,
a poll whose fingerprint matches the stored one makes no reschedule call,
and a poll whose fingerprint differs makes exactly one reschedule call
and updates the stored fingerprint; without the handle the changed poll
only updates the fingerprint. -/
theorem C6_config_watcher_step (c : WeeklyConfig) (st : Option String) :
    (st = none → checkConfigChanges true c st = (some (configFingerprint c), 0)) ∧
    (st = some (configFingerprint c) →
      checkConfigChanges true c st = (some (configFingerprint c), 0)) ∧
    (∀ old, st = some old → configFingerprint c ≠ old →
      checkConfigChanges true c st = (some (configFingerprint c), 1)) := by
  refine ⟨?_, ?_, ?_⟩
  · intro h
    subst h
    rfl
  · intro h
    subst h
    simp [checkConfigChanges]
  · intro old h hne
    subst h
    simp [checkConfigChanges, hne]

/-- Witness for C6 covering the three poll kinds with the broadcast hour
changing 18 → 19. -/
theorem C6_witness :
    checkConfigChanges true ⟨true, 6, 19, 0, false⟩ none =
      (some (configFingerprint ⟨true, 6, 19, 0, false⟩), 0) ∧
    checkConfigChanges true ⟨true, 6, 19, 0, false⟩
        (some (configFingerprint ⟨true, 6, 19, 0, false⟩)) =
      (some (configFingerprint ⟨true, 6, 19, 0, false⟩), 0) ∧
    checkConfigChanges true ⟨true, 6, 19, 0, false⟩
        (some (configFingerprint ⟨true, 6, 18, 0, false⟩)) =
      (some (configFingerprint ⟨true, 6, 19, 0, false⟩), 1) := by
  refine ⟨(C6_config_watcher_step ⟨true, 6, 19, 0, false⟩ none).1 rfl, ?_, ?_⟩
  · exact (C6_config_watcher_step ⟨true, 6, 19, 0, false⟩
      (some (configFingerprint ⟨true, 6, 19, 0, false⟩))).2.1 rfl
  · exact (C6_config_watcher_step ⟨true, 6, 19, 0, false⟩
      (some (configFingerprint ⟨true, 6, 18, 0, false⟩))).2.2
      (configFingerprint ⟨true, 6, 18, 0, false⟩) rfl (by decide)

/-- Claim C2 counterexample: rescheduling training 1 to 05:00 while now
is Monday 04:00:00 keeps only the weekly trigger, whereas a fresh
`scheduleReminder` for the same training id, weekday and new time also
composes the same-day one-shot — the trigger sets differ. -/
theorem C2_counterexample :
    ((rescheduleTrainingReminder 1 "05:00" 30
        (some [⟨reminderJobId 1, [TriggerSpec.weeklyAt 0 4 30],
          some (5, 0, "05:00")⟩])).2.getD []).map Job.triggers ≠
      ((scheduleTrainingReminder 1 5 0 "05:00" 30 ⟨0, 14400⟩
        (some [⟨reminderJobId 1, [TriggerSpec.weeklyAt 0 4 30],
          some (5, 0, "05:00")⟩])).2.getD []).map Job.triggers := by
  decide

/-- Claim C2 as amended: `rescheduleReminder` succeeds only when the
stored trigger is the plain weekly one (a combined one-shot + weekly
trigger raises `AttributeError`, caught, returning `False`), and then
replaces the job in place with a weekly trigger at the preserved weekday
and the newly computed reminder time; this equals the trigger set a fresh
`scheduleReminder` would compose for the same weekday and new time
exactly when no same-day one-shot would be added (now's weekday differs
from the job's weekday, or today's reminder instant is not after now). -/
theorem C2_reschedule_matches_fresh_without_oneshot (trainingId : Nat)
    (newTime : String) (offset : Nat) (now : NowTime) (store : Store)
    (job : Job) (w h0 m0 : Nat)
    (hfind : store.find? (fun j => j.id = reminderJobId trainingId) = some job)
    (htr : job.triggers = [TriggerSpec.weeklyAt w h0 m0])
    (hnoshot : ¬ (now.weekday = w ∧ now.secOfDay <
      (calculateReminderTime newTime offset).1 * 3600 +
        (calculateReminderTime newTime offset).2 * 60)) :
    rescheduleTrainingReminder trainingId newTime offset (some store) =
      (true, some (store.map (fun j =>
        if j.id = reminderJobId trainingId then
          { job with
              triggers := composeTriggers w
                            (calculateReminderTime newTime offset).1
                            (calculateReminderTime newTime offset).2 now }
        else j))) := by
  have hcomp : composeTriggers w (calculateReminderTime newTime offset).1
      (calculateReminderTime newTime offset).2 now =
      [TriggerSpec.weeklyAt w (calculateReminderTime newTime offset).1
        (calculateReminderTime newTime offset).2] := by
    rw [composeTriggers_eq_ite, if_neg hnoshot]
  rw [hcomp]
  unfold rescheduleTrainingReminder
  simp [hfind, htr]

/-- Witness for the amended C2: training 3 trains Wednesday, now is
Monday 04:00:00, so no one-shot applies and reschedule equals the fresh
composition. -/
theorem C2_witness :
    rescheduleTrainingReminder 3 "05:00" 30
        (some [⟨reminderJobId 3, [TriggerSpec.weeklyAt 2 6 0],
          some (9, 2, "06:30")⟩]) =
      (true, some [⟨reminderJobId 3, [TriggerSpec.weeklyAt 2 4 30],
        some (9, 2, "06:30")⟩]) := by
  have h := C2_reschedule_matches_fresh_without_oneshot 3 "05:00" 30 ⟨0, 14400⟩
    [⟨reminderJobId 3, [TriggerSpec.weeklyAt 2 6 0], some (9, 2, "06:30")⟩]
    ⟨reminderJobId 3, [TriggerSpec.weeklyAt 2 6 0], some (9, 2, "06:30")⟩
    2 6 0 (by decide) (by decide) (by decide)
  rw [h]
  decide

/-- Claim C5 counterexample: with the broadcast config deactivated,
`rescheduleBroadcast` returns early — the live `weekly_reminder_trainer`
job stays in the Job Store (count 1, unchanged), contradicting "the
broadcast job is removed". -/
theorem C5_counterexample :
    rescheduleWeeklyReminder (some ⟨false, 6, 18, 0, false⟩)
        (some [⟨weeklyJobId, [TriggerSpec.weeklyAt 6 18 0], none⟩]) =
      (false, some [⟨weeklyJobId, [TriggerSpec.weeklyAt 6 18 0], none⟩]) ∧
    countId [⟨weeklyJobId, [TriggerSpec.weeklyAt 6 18 0], none⟩] weeklyJobId
      = 1 := by
  constructor
  · decide
  · decide

/-- Claim C5 as amended: deactivating the broadcast config and invoking
`rescheduleBroadcast` does not remove the job — the call returns `False`
and leaves the Job Store unchanged; the stale job is inert because
`send_weekly_reminder_sync` checks `is_active` at fire time and sends
nothing when the config is inactive. -/
theorem C5_deactivation_keeps_inert_job (c : WeeklyConfig) (store : Store)
    (env : WeeklyEnv) (hc : c.isActive = false) (henv : env.config = some c) :
    rescheduleWeeklyReminder (some c) (some store) = (false, some store) ∧
    sendWeeklyReminderSync env = (false, 0) := by
  constructor
  · unfold rescheduleWeeklyReminder scheduleWeeklyReminder
    simp [hc]
  · unfold sendWeeklyReminderSync
    rw [henv]
    simp [hc]

/-- Witness for the amended C5 at a concrete deactivated config. -/
theorem C5_witness :
    rescheduleWeeklyReminder (some ⟨false, 6, 18, 0, false⟩)
        (some [⟨weeklyJobId, [TriggerSpec.weeklyAt 6 18 0], none⟩]) =
      (false, some [⟨weeklyJobId, [TriggerSpec.weeklyAt 6 18 0], none⟩]) ∧
    sendWeeklyReminderSync
        ⟨some ⟨false, 6, 18, 0, false⟩, some "msg", [11, 12], true, true,
          fun _ => true⟩ =
      (false, 0) :=
  C5_deactivation_keeps_inert_job ⟨false, 6, 18, 0, false⟩
    [⟨weeklyJobId, [TriggerSpec.weeklyAt 6 18 0], none⟩]
    ⟨some ⟨false, 6, 18, 0, false⟩, some "msg", [11, 12], true, true,
      fun _ => true⟩ rfl rfl

end EntrenaSmart
